import Mathlib

/-!
Shallow embedding of the input-routing engine of `input_router.py`
(class `InputRouter`): the device mapping table and session registry,
the window-resolution environment, the two injection paths, the
per-event routing algorithm `route_event`, and the line-oriented
stream processing of `event_loop`.

Interaction with the operating system (user32 calls, process polling)
is modelled by an `Env` of oracles; every outward call the Python code
performs is represented either as an oracle query or as an emitted
`Effect` value, so that the effect trace of one routing pass can be
inspected.
-/

namespace InputRouter

/-- Window message constants used by `inject_keyboard_to_window` (source lines 46-48). -/
def WM_KEYDOWN : Nat := 0x0100

def WM_KEYUP : Nat := 0x0101

def WM_CHAR : Nat := 0x0102

/-- Raw Input button flags (source lines 38-43). -/
def RI_MOUSE_LEFT_BUTTON_DOWN : Nat := 0x0001

def RI_MOUSE_LEFT_BUTTON_UP : Nat := 0x0002

def RI_MOUSE_RIGHT_BUTTON_DOWN : Nat := 0x0004

def RI_MOUSE_RIGHT_BUTTON_UP : Nat := 0x0008

def RI_MOUSE_MIDDLE_BUTTON_DOWN : Nat := 0x0010

def RI_MOUSE_MIDDLE_BUTTON_UP : Nat := 0x0020

/-- SendInput mouse flag constants (source lines 28-34). -/
def MOUSEEVENTF_LEFTDOWN : Nat := 0x0002

def MOUSEEVENTF_LEFTUP : Nat := 0x0004

def MOUSEEVENTF_RIGHTDOWN : Nat := 0x0008

def MOUSEEVENTF_RIGHTUP : Nat := 0x0010

def MOUSEEVENTF_MIDDLEDOWN : Nat := 0x0020

def MOUSEEVENTF_MIDDLEUP : Nat := 0x0040

/-- One user session, mirroring the `UserSession` dataclass (source lines 95-103).
`process` is `some p` when the engine launched the target process itself
(`p` is an opaque identifier for the `Popen` object) and `none` for
attached sessions. -/
structure UserSession where
  user_id : String
  process : Option Nat
  hwnd : Option Nat
  project_dir : String
  editor : String
  pid : Nat
deriving DecidableEq

/-- One decoded input event, mirroring the JSON dictionary read by
`route_event` with the defaults its `.get` calls apply
(`device_id` -> "", `type` -> "", `vkey` -> 0, `dx`/`dy` -> 0, `buttons` -> 0). -/
structure EventRec where
  device_id : String
  etype : String
  vkey : Nat
  dx : Int
  dy : Int
  buttons : Nat
  timestamp : Nat
deriving DecidableEq

/-- Outward-visible OS actions the router can perform. `postMessage`
models `user32.PostMessageW`, the `sendInput` constructors model
`user32.SendInput`, and `setForegroundWindow` models
`user32.SetForegroundWindow`. -/
inductive Effect where
  | postMessage (hwnd : Nat) (msg : Nat) (wParam : Nat) (lParam : Nat)
  | sendInputKeyboard (vkey : Nat) (keyUp : Bool)
  | sendInputMouseMove (dx : Int) (dy : Int)
  | sendInputMouseButton (flags : Nat)
  | setForegroundWindow (hwnd : Nat)
deriving DecidableEq

/-- Label for the return point `route_event` takes, following the
`RoutingOutcome` taxonomy of the specification; `ignoredUnknownType`
labels the silent fall-through for an event whose `type` is neither
"keyboard" nor "mouse". -/
inductive RoutingOutcome where
  | delivered
  | droppedUnmappedDevice
  | droppedNoSession
  | droppedProcessDead
  | droppedWindowUnresolvable
  | ignoredUnknownType
deriving DecidableEq

/-- Environment of OS oracles: the visible-window enumeration used by
`EnumWindows`, per-window owner pid and visibility, `IsWindow`
liveness, process exit status (`Popen.poll() is not None`), and the two
`MapVirtualKeyW` tables (map type 0: virtual key to scan code;
map type 2: virtual key to character). -/
structure Env where
  windows : List Nat
  windowPid : Nat → Nat
  isVisible : Nat → Bool
  isWindow : Nat → Bool
  exited : Nat → Bool
  mapVirtualKeyToScan : Nat → Nat
  mapVirtualKeyToChar : Nat → Nat

/-- Python dict read `d.get(k)` on a string-keyed table. -/
def dictGet (d : List (String × α)) (k : String) : Option α :=
  (d.find? (fun p => p.1 = k)).map (fun p => p.2)

/-- Python dict write `d[k] = v`: replace the binding if the key is
present, append it otherwise. -/
def dictSet (d : List (String × α)) (k : String) (v : α) : List (String × α) :=
  if (d.find? (fun p => p.1 = k)).isSome then
    d.map (fun p => if p.1 = k then (k, v) else p)
  else d ++ [(k, v)]

/-- The shared mutable state of the daemon: `device_mappings` and
`user_sessions` (source lines 112-113). -/
structure RouterState where
  device_mappings : List (String × String)
  user_sessions : List (String × UserSession)
deriving DecidableEq

/-- `add_device_mapping` (source lines 181-186), its pure state part. -/
def add_device_mapping (st : RouterState) (device_id user_id : String) : RouterState :=
  { st with device_mappings := dictSet st.device_mappings device_id user_id }

/-- `remove_device_mapping` (source lines 188-194), its pure state part. -/
def remove_device_mapping (st : RouterState) (device_id : String) : RouterState :=
  { st with device_mappings := st.device_mappings.filter (fun p => ¬ p.1 = device_id) }

/-- `_find_window_by_pid` (source lines 249-264): enumerate windows,
collect the visible ones owned by `pid`, return the first or `None`. -/
def find_window_by_pid (env : Env) (pid : Nat) : Option Nat :=
  (env.windows.filter (fun h => env.windowPid h = pid && env.isVisible h)).head?

/-- Python truthiness of the `Optional[int]` field `session.hwnd`:
falsy when `None` or `0`. -/
def truthyHwnd : Option Nat → Bool
  | none => false
  | some h => h != 0

/-- `user32.IsWindow` applied to an `Optional[int]` handle (`None` maps
to the null handle, which is never a window). -/
def isWindowOpt (env : Env) : Option Nat → Bool
  | none => false
  | some h => env.isWindow h

/-- The guard `session.process and session.process.poll() is not None`
of source line 479. -/
def processDead (env : Env) (s : UserSession) : Bool :=
  match s.process with
  | some p => env.exited p
  | none => false

/-- `_refresh_window_handle` (source lines 339-346): only a session with
a still-running owned process can be refreshed; on a truthy find the
handle is overwritten and `True` returned, otherwise the session is
left unchanged and `False` returned. -/
def refreshWindowHandle (env : Env) (s : UserSession) : UserSession × Bool :=
  match s.process with
  | some p =>
    if env.exited p then (s, false)
    else
      match find_window_by_pid env s.pid with
      | some h => if h != 0 then ({ s with hwnd := some h }, true) else (s, false)
      | none => (s, false)
  | none => (s, false)

/-- The `lParam` payload built for `WM_KEYDOWN` and `WM_CHAR`
(source line 395): repeat count 1 in bits 0-15, scan code shifted to
bit 16. -/
def lparamKeyDown (scanCode : Nat) : Nat :=
  (scanCode <<< 16) ||| 1

/-- The `lParam` payload built for `WM_KEYUP` (source line 396): as for
key-down plus the previous-key-state bit 30 and transition-state
bit 31. -/
def lparamKeyUp (scanCode : Nat) : Nat :=
  (scanCode <<< 16) ||| 1 ||| (1 <<< 30) ||| (1 <<< 31)

/-- `inject_keyboard_to_window` (source lines 381-407): post key-down,
then a character message exactly when `MapVirtualKeyW(vkey, 2)` is
positive, then key-up, all to the one target window. -/
def inject_keyboard_to_window (env : Env) (hwnd : Nat) (vkey : Nat) : List Effect :=
  let scanCode := env.mapVirtualKeyToScan vkey
  let charCode := env.mapVirtualKeyToChar vkey
  [Effect.postMessage hwnd WM_KEYDOWN vkey (lparamKeyDown scanCode)]
    ++ (if charCode > 0 then
          [Effect.postMessage hwnd WM_CHAR charCode (lparamKeyDown scanCode)]
        else [])
    ++ [Effect.postMessage hwnd WM_KEYUP vkey (lparamKeyUp scanCode)]

/-- The flag accumulation of `inject_mouse_button` (source lines 428-441). -/
def mouseButtonFlags (buttons : Nat) : Nat :=
  let flags : Nat := 0
  let flags := if buttons &&& RI_MOUSE_LEFT_BUTTON_DOWN ≠ 0 then flags ||| MOUSEEVENTF_LEFTDOWN else flags
  let flags := if buttons &&& RI_MOUSE_LEFT_BUTTON_UP ≠ 0 then flags ||| MOUSEEVENTF_LEFTUP else flags
  let flags := if buttons &&& RI_MOUSE_RIGHT_BUTTON_DOWN ≠ 0 then flags ||| MOUSEEVENTF_RIGHTDOWN else flags
  let flags := if buttons &&& RI_MOUSE_RIGHT_BUTTON_UP ≠ 0 then flags ||| MOUSEEVENTF_RIGHTUP else flags
  let flags := if buttons &&& RI_MOUSE_MIDDLE_BUTTON_DOWN ≠ 0 then flags ||| MOUSEEVENTF_MIDDLEDOWN else flags
  let flags := if buttons &&& RI_MOUSE_MIDDLE_BUTTON_UP ≠ 0 then flags ||| MOUSEEVENTF_MIDDLEUP else flags
  flags

/-- `inject_mouse_button` (source lines 426-457): nothing is injected
when no flag is set, otherwise one combined `SendInput` call. -/
def inject_mouse_button (buttons : Nat) : List Effect :=
  let flags := mouseButtonFlags buttons
  if flags = 0 then [] else [Effect.sendInputMouseButton flags]

/-- `inject_mouse_move` (source lines 409-424) as called from
`route_event` (relative move, one `SendInput` call). -/
def inject_mouse_move (dx dy : Int) : List Effect :=
  [Effect.sendInputMouseMove dx dy]

/-- The kind-specific dispatch at the end of `route_event`
(source lines 496-516). The (possibly refreshed) session object is the
one stored in the registry, since Python mutates it in place. -/
def dispatch (env : Env) (st : RouterState) (ev : EventRec) (user_id : String)
    (session : UserSession) : RouterState × List Effect × RoutingOutcome :=
  let st' := { st with user_sessions := dictSet st.user_sessions user_id session }
  if ev.etype = "keyboard" then
    (st', inject_keyboard_to_window env (session.hwnd.getD 0) ev.vkey, .delivered)
  else if ev.etype = "mouse" then
    (st',
      (if ev.dx ≠ 0 ∨ ev.dy ≠ 0 then inject_mouse_move ev.dx ev.dy else [])
        ++ (if ev.buttons ≠ 0 then inject_mouse_button ev.buttons else []),
      .delivered)
  else (st', [], .ignoredUnknownType)

/-- The tail of `route_event` after a truthy handle is in hand
(source lines 490-516): check `IsWindow`; when stale, call
`_refresh_window_handle` ignoring its return value and bail out only
when the handle field itself is falsy afterwards. -/
def routeResolved (env : Env) (st : RouterState) (ev : EventRec) (user_id : String)
    (session : UserSession) : RouterState × List Effect × RoutingOutcome :=
  if isWindowOpt env session.hwnd then
    dispatch env st ev user_id session
  else
    if truthyHwnd (refreshWindowHandle env session).1.hwnd then
      dispatch env st ev user_id (refreshWindowHandle env session).1
    else
      ({ st with
          user_sessions := dictSet st.user_sessions user_id (refreshWindowHandle env session).1 },
        [], .droppedWindowUnresolvable)

/-- `route_event` (source lines 460-516): mapping lookup, session
lookup, dead-process check, handle refresh when the handle is falsy,
liveness check, then kind-specific injection. -/
def route_event (env : Env) (st : RouterState) (ev : EventRec) :
    RouterState × List Effect × RoutingOutcome :=
  match dictGet st.device_mappings ev.device_id with
  | none => (st, [], .droppedUnmappedDevice)
  | some user_id =>
    if user_id = "" then (st, [], .droppedUnmappedDevice)
    else
      match dictGet st.user_sessions user_id with
      | none => (st, [], .droppedNoSession)
      | some session =>
        if processDead env session then
          ({ st with user_sessions := dictSet st.user_sessions user_id { session with hwnd := none } },
            [], .droppedProcessDead)
        else if truthyHwnd session.hwnd then
          routeResolved env st ev user_id session
        else
          match refreshWindowHandle env session with
          | (s2, true) => routeResolved env st ev user_id s2
          | (_, false) => (st, [], .droppedWindowUnresolvable)

/-- Python truthiness of `line.strip()` (source line 561): true exactly
when the line contains a character that is not whitespace. -/
def stripTruthy (line : String) : Bool :=
  line.data.any (fun c => !c.isWhitespace)

/-- The per-line body of the inner loop of `event_loop`
(source lines 559-566): a blank line is skipped, a line that decodes
yields its event, a line whose decode fails is logged and skipped, and
processing always continues with the remaining lines. `decode` stands
for `json.loads` together with event construction (`none` models a
raised `JSONDecodeError`). -/
def processLines (decode : String → Option EventRec) : List String → List EventRec
  | [] => []
  | line :: rest =>
    (if stripTruthy line then
      match decode line with
      | some ev => [ev]
      | none => []
    else []) ++ processLines decode rest

/-- One `recv` iteration of `event_loop` (source lines 551-566): append
the chunk to the buffer, process every newline-terminated line, keep
the unterminated remainder buffered. -/
def parseChunk (decode : String → Option EventRec) (buffer chunk : String) :
    List EventRec × String :=
  let parts := (buffer ++ chunk).splitOn "\n"
  (processLines decode parts.dropLast, parts.getLastD "")

/-- The two structures the specification's concurrency discipline is
about. -/
inductive SharedStructure where
  | mappingTable
  | sessionRegistry
deriving DecidableEq

/-- One access some operation of the source performs on a shared
structure: which structure, whether it mutates it, and whether the
access happens while `self.lock` is held. -/
structure SharedAccess where
  target : SharedStructure
  isWrite : Bool
  underLock : Bool
deriving DecidableEq

/-- Accesses of `add_device_mapping` (source lines 181-186): the
mapping write happens inside `with self.lock`. -/
def addDeviceMappingAccesses : List SharedAccess :=
  [⟨.mappingTable, true, true⟩]

/-- Accesses of `remove_device_mapping` (source lines 188-194):
membership test and deletion, both inside `with self.lock`. -/
def removeDeviceMappingAccesses : List SharedAccess :=
  [⟨.mappingTable, false, true⟩, ⟨.mappingTable, true, true⟩]

/-- Accesses of `route_event` (source lines 460-516): it reads
`device_mappings` (line 466) and `user_sessions` (line 473) and may
mutate the stored session (lines 481, 486, 492) without ever acquiring
`self.lock`. -/
def routeEventAccesses : List SharedAccess :=
  [⟨.mappingTable, false, false⟩, ⟨.sessionRegistry, false, false⟩,
    ⟨.sessionRegistry, true, false⟩]

/-- Accesses of `launch_editor` (source line 242): inserts the new
session without the lock. -/
def launchEditorAccesses : List SharedAccess :=
  [⟨.sessionRegistry, true, false⟩]

/-- Accesses of `attach_to_window` (source line 335): inserts the new
session without the lock. -/
def attachToWindowAccesses : List SharedAccess :=
  [⟨.sessionRegistry, true, false⟩]

/-- Accesses of the HTTP `/stop` handler (source lines 720-725): reads
and deletes a session without the lock. -/
def httpStopSessionAccesses : List SharedAccess :=
  [⟨.sessionRegistry, false, false⟩, ⟨.sessionRegistry, true, false⟩]

/-- All operations of the source that touch the two shared structures
from the two execution contexts. -/
def allOperationAccesses : List (List SharedAccess) :=
  [addDeviceMappingAccesses, removeDeviceMappingAccesses, routeEventAccesses,
    launchEditorAccesses, attachToWindowAccesses, httpStopSessionAccesses]

/-- With a single shared lock, every access being mutually exclusive
with every concurrent mutation requires every access to the shared
structures to be performed under that lock. -/
def lockDiscipline (ops : List (List SharedAccess)) : Prop :=
  ∀ op ∈ ops, ∀ a ∈ op, a.underLock = true

/-- Which window has OS input focus after a list of effects:
`PostMessageW` never moves focus, `SetForegroundWindow` does. -/
def focusAfter (effects : List Effect) (focus : Nat) : Nat :=
  effects.foldl
    (fun f e =>
      match e with
      | Effect.setForegroundWindow h => h
      | _ => f)
    focus

/-- Concrete environment in which every handle is a live window, no
process has exited and the virtual key 13 (Enter) has scan code 28 and
character code 13. -/
def envLive : Env :=
  { windows := [], windowPid := fun _ => 0, isVisible := fun _ => false,
    isWindow := fun _ => true, exited := fun _ => false,
    mapVirtualKeyToScan := fun _ => 28, mapVirtualKeyToChar := fun _ => 13 }

/-- Environment in which no handle is a live window and no process has
exited, with an empty window enumeration (re-resolution always fails). -/
def envStale : Env :=
  { envLive with isWindow := fun _ => false }

/-- Environment in which every process has exited while every handle is
still reported live by `IsWindow`. -/
def envDeadLive : Env :=
  { envLive with exited := fun _ => true }

/-- Launched session for user "alice" with window handle 9. -/
def sessionLive : UserSession :=
  { user_id := "alice", process := some 1, hwnd := some 9, project_dir := "",
    editor := "cursor", pid := 1 }

def stLive : RouterState :=
  { device_mappings := [("dev-1", "alice")], user_sessions := [("alice", sessionLive)] }

def evKeyboard : EventRec :=
  { device_id := "dev-1", etype := "keyboard", vkey := 13, dx := 0, dy := 0,
    buttons := 0, timestamp := 100 }

def evMouse : EventRec :=
  { device_id := "dev-1", etype := "mouse", vkey := 0, dx := 5, dy := -3,
    buttons := 0, timestamp := 101 }

/-- Launched session for "alice" whose recorded handle 42 is stale in
`envStale`. -/
def sessionStale : UserSession :=
  { sessionLive with hwnd := some 42 }

def stStale : RouterState :=
  { device_mappings := [("dev-1", "alice")], user_sessions := [("alice", sessionStale)] }

/-- Attached session (no owned process, pid 0) for user "bob" with
recorded handle 7. -/
def sessionAttachedStale : UserSession :=
  { user_id := "bob", process := none, hwnd := some 7, project_dir := "",
    editor := "attached", pid := 0 }

def stAttachedStale : RouterState :=
  { device_mappings := [("dev-2", "bob")],
    user_sessions := [("bob", sessionAttachedStale)] }

def evKeyboard2 : EventRec :=
  { evKeyboard with device_id := "dev-2" }

/-- Attached session for "bob" with no recorded handle at all. -/
def sessionAttachedAbsent : UserSession :=
  { sessionAttachedStale with hwnd := none }

def stAttachedAbsent : RouterState :=
  { device_mappings := [("dev-2", "bob")],
    user_sessions := [("bob", sessionAttachedAbsent)] }

/-- Launched session for "carol" whose owned process is identifier 2
and whose recorded handle is 5. -/
def sessionDead : UserSession :=
  { user_id := "carol", process := some 2, hwnd := some 5, project_dir := "",
    editor := "cursor", pid := 2 }

def stDead : RouterState :=
  { device_mappings := [("dev-3", "carol")], user_sessions := [("carol", sessionDead)] }

def evKeyboard3 : EventRec :=
  { evKeyboard with device_id := "dev-3" }

def evUnmapped : EventRec :=
  { evKeyboard with device_id := "dev-9" }

/-- A concrete decoded event used by the stream-parser witness. -/
def evParsed : EventRec :=
  { device_id := "dev-1", etype := "keyboard", vkey := 65, dx := 0, dy := 0,
    buttons := 0, timestamp := 7 }

/-- A concrete decoder for the stream-parser witness: only the line
"ok" decodes. -/
def decodeW : String → Option EventRec :=
  fun s => if s = "ok" then some evParsed else none

/-! ## Helper lemmas -/

lemma find?_replace {α : Type} (d : List (String × α)) (k : String) (v : α)
    (h : (d.find? (fun p => p.1 = k)).isSome = true) :
    (d.map (fun p => if p.1 = k then (k, v) else p)).find? (fun p => p.1 = k) = some (k, v) := by
  induction d with
  | nil => simp at h
  | cons p d ih =>
    by_cases hp : p.1 = k
    · simp only [List.map_cons, if_pos hp, List.find?_cons]
      simp
    · simp only [List.map_cons, if_neg hp, List.find?_cons] at h ⊢
      have hd : (decide (p.1 = k)) = false := by simp [hp]
      rw [hd] at h ⊢
      exact ih h

lemma dictGet_dictSet {α : Type} (d : List (String × α)) (k : String) (v₀ v : α)
    (h : dictGet d k = some v₀) : dictGet (dictSet d k v) k = some v := by
  have hs : (d.find? (fun p => p.1 = k)).isSome = true := by
    unfold dictGet at h
    cases hf : d.find? (fun p => p.1 = k) <;> rw [hf] at h <;> simp at h ⊢
  unfold dictSet dictGet
  rw [if_pos hs, find?_replace d k v hs]
  rfl

lemma dispatch_fst (env : Env) (st : RouterState) (ev : EventRec) (uid : String)
    (s : UserSession) :
    (dispatch env st ev uid s).1 = { st with user_sessions := dictSet st.user_sessions uid s } := by
  unfold dispatch
  by_cases h1 : ev.etype = "keyboard" <;> by_cases h2 : ev.etype = "mouse" <;>
    simp [h1, h2]

lemma route_event_live_handle (env : Env) (st : RouterState) (ev : EventRec)
    (uid : String) (s : UserSession) (h : Nat)
    (hm : dictGet st.device_mappings ev.device_id = some uid)
    (hu : ¬ uid = "")
    (hs : dictGet st.user_sessions uid = some s)
    (hp : processDead env s = false)
    (hh : s.hwnd = some h) (h0 : h ≠ 0) (hw : env.isWindow h = true) :
    route_event env st ev = dispatch env st ev uid s := by
  unfold route_event
  rw [hm]
  simp only [if_neg hu]
  rw [hs]
  simp only [hp, Bool.false_eq_true, if_false]
  have ht : truthyHwnd s.hwnd = true := by simp [truthyHwnd, hh, h0]
  simp only [ht, if_true]
  unfold routeResolved
  have hiw : isWindowOpt env s.hwnd = true := by simp [isWindowOpt, hh, hw]
  simp only [hiw, if_true]

lemma route_mapping_none (env : Env) (st : RouterState) (ev : EventRec)
    (h : dictGet st.device_mappings ev.device_id = none) :
    route_event env st ev = (st, [], RoutingOutcome.droppedUnmappedDevice) := by
  unfold route_event
  rw [h]

lemma route_uid_empty (env : Env) (st : RouterState) (ev : EventRec) (uid : String)
    (hm : dictGet st.device_mappings ev.device_id = some uid) (hu : uid = "") :
    route_event env st ev = (st, [], RoutingOutcome.droppedUnmappedDevice) := by
  unfold route_event
  rw [hm]
  simp only [if_pos hu]

lemma route_no_session (env : Env) (st : RouterState) (ev : EventRec) (uid : String)
    (hm : dictGet st.device_mappings ev.device_id = some uid) (hu : ¬ uid = "")
    (hs : dictGet st.user_sessions uid = none) :
    route_event env st ev = (st, [], RoutingOutcome.droppedNoSession) := by
  unfold route_event
  rw [hm]
  simp only [if_neg hu]
  rw [hs]

lemma route_process_dead (env : Env) (st : RouterState) (ev : EventRec) (uid : String)
    (s : UserSession)
    (hm : dictGet st.device_mappings ev.device_id = some uid) (hu : ¬ uid = "")
    (hs : dictGet st.user_sessions uid = some s)
    (hpd : processDead env s = true) :
    route_event env st ev =
      ({ st with user_sessions := dictSet st.user_sessions uid { s with hwnd := none } },
        [], RoutingOutcome.droppedProcessDead) := by
  unfold route_event
  rw [hm]
  simp only [if_neg hu]
  rw [hs]
  simp only [hpd, if_true]

lemma route_truthy (env : Env) (st : RouterState) (ev : EventRec) (uid : String)
    (s : UserSession)
    (hm : dictGet st.device_mappings ev.device_id = some uid) (hu : ¬ uid = "")
    (hs : dictGet st.user_sessions uid = some s)
    (hpd : processDead env s = false) (ht : truthyHwnd s.hwnd = true) :
    route_event env st ev = routeResolved env st ev uid s := by
  unfold route_event
  rw [hm]
  simp only [if_neg hu]
  rw [hs]
  simp only [hpd, Bool.false_eq_true, if_false, ht, if_true]

lemma route_falsy_refresh_ok (env : Env) (st : RouterState) (ev : EventRec) (uid : String)
    (s s2 : UserSession)
    (hm : dictGet st.device_mappings ev.device_id = some uid) (hu : ¬ uid = "")
    (hs : dictGet st.user_sessions uid = some s)
    (hpd : processDead env s = false) (ht : truthyHwnd s.hwnd = false)
    (hr : refreshWindowHandle env s = (s2, true)) :
    route_event env st ev = routeResolved env st ev uid s2 := by
  unfold route_event
  rw [hm]
  simp only [if_neg hu]
  rw [hs]
  simp only [hpd, Bool.false_eq_true, if_false, ht]
  rw [hr]

lemma route_falsy_refresh_fail (env : Env) (st : RouterState) (ev : EventRec) (uid : String)
    (s s2 : UserSession)
    (hm : dictGet st.device_mappings ev.device_id = some uid) (hu : ¬ uid = "")
    (hs : dictGet st.user_sessions uid = some s)
    (hpd : processDead env s = false) (ht : truthyHwnd s.hwnd = false)
    (hr : refreshWindowHandle env s = (s2, false)) :
    route_event env st ev = (st, [], RoutingOutcome.droppedWindowUnresolvable) := by
  unfold route_event
  rw [hm]
  simp only [if_neg hu]
  rw [hs]
  simp only [hpd, Bool.false_eq_true, if_false, ht]
  rw [hr]

lemma rr_live (env : Env) (st : RouterState) (ev : EventRec) (uid : String)
    (s : UserSession) (hw : isWindowOpt env s.hwnd = true) :
    routeResolved env st ev uid s = dispatch env st ev uid s := by
  unfold routeResolved
  simp only [hw, if_true]

lemma rr_stale_truthy (env : Env) (st : RouterState) (ev : EventRec) (uid : String)
    (s : UserSession) (hw : isWindowOpt env s.hwnd = false)
    (ht : truthyHwnd (refreshWindowHandle env s).1.hwnd = true) :
    routeResolved env st ev uid s = dispatch env st ev uid (refreshWindowHandle env s).1 := by
  unfold routeResolved
  simp only [hw, Bool.false_eq_true, if_false, ht, if_true]

lemma rr_stale_falsy (env : Env) (st : RouterState) (ev : EventRec) (uid : String)
    (s : UserSession) (hw : isWindowOpt env s.hwnd = false)
    (ht : truthyHwnd (refreshWindowHandle env s).1.hwnd = false) :
    routeResolved env st ev uid s =
      ({ st with
          user_sessions := dictSet st.user_sessions uid (refreshWindowHandle env s).1 },
        [], RoutingOutcome.droppedWindowUnresolvable) := by
  unfold routeResolved
  simp only [hw, Bool.false_eq_true, if_false, ht]

lemma routeResolved_shape (env : Env) (st : RouterState) (ev : EventRec) (uid : String)
    (s : UserSession) :
    (routeResolved env st ev uid s).2.1 = [] ∨
    ∃ s' h, s'.hwnd = some h ∧ routeResolved env st ev uid s = dispatch env st ev uid s' := by
  by_cases hw : isWindowOpt env s.hwnd = true
  · rcases hsh : s.hwnd with _ | h
    · rw [hsh] at hw
      simp [isWindowOpt] at hw
    · exact Or.inr ⟨s, h, hsh, rr_live env st ev uid s hw⟩
  · have hw' := Bool.eq_false_iff.mpr hw
    by_cases ht : truthyHwnd (refreshWindowHandle env s).1.hwnd = true
    · rcases hsh : (refreshWindowHandle env s).1.hwnd with _ | h
      · rw [hsh] at ht
        simp [truthyHwnd] at ht
      · exact Or.inr ⟨(refreshWindowHandle env s).1, h, hsh,
          rr_stale_truthy env st ev uid s hw' ht⟩
    · left
      rw [rr_stale_falsy env st ev uid s hw' (Bool.eq_false_iff.mpr ht)]

lemma route_event_shape (env : Env) (st : RouterState) (ev : EventRec) :
    (route_event env st ev).2.1 = [] ∨
    ∃ uid s₀ s' h, dictGet st.device_mappings ev.device_id = some uid ∧
      dictGet st.user_sessions uid = some s₀ ∧ s'.hwnd = some h ∧
      route_event env st ev = dispatch env st ev uid s' := by
  rcases hm : dictGet st.device_mappings ev.device_id with _ | uid
  · left
    rw [route_mapping_none env st ev hm]
  · by_cases hu : uid = ""
    · left
      rw [route_uid_empty env st ev uid hm hu]
    · rcases hs : dictGet st.user_sessions uid with _ | s₀
      · left
        rw [route_no_session env st ev uid hm hu hs]
      · by_cases hpd : processDead env s₀ = true
        · left
          rw [route_process_dead env st ev uid s₀ hm hu hs hpd]
        · have hpd' := Bool.eq_false_iff.mpr hpd
          by_cases ht : truthyHwnd s₀.hwnd = true
          · rw [route_truthy env st ev uid s₀ hm hu hs hpd' ht]
            rcases routeResolved_shape env st ev uid s₀ with hnil | ⟨s', h, hsh, heq⟩
            · exact Or.inl hnil
            · exact Or.inr ⟨uid, s₀, s', h, rfl, hs, hsh, heq⟩
          · have ht' := Bool.eq_false_iff.mpr ht
            rcases hr : refreshWindowHandle env s₀ with ⟨s2, b⟩
            cases b
            · left
              rw [route_falsy_refresh_fail env st ev uid s₀ s2 hm hu hs hpd' ht' hr]
            · rw [route_falsy_refresh_ok env st ev uid s₀ s2 hm hu hs hpd' ht' hr]
              rcases routeResolved_shape env st ev uid s2 with hnil | ⟨s', h, hsh, heq⟩
              · exact Or.inl hnil
              · exact Or.inr ⟨uid, s₀, s', h, rfl, hs, hsh, heq⟩

lemma focusAfter_of_posts (l : List Effect) (f : Nat)
    (h : ∀ e ∈ l, ∃ hw m w lp, e = Effect.postMessage hw m w lp) : focusAfter l f = f := by
  induction l generalizing f with
  | nil => rfl
  | cons e t ih =>
    obtain ⟨hw, m, w, lp, rfl⟩ := h _ (List.mem_cons_self _ _)
    exact ih f (fun e he => h e (List.mem_cons_of_mem _ he))

lemma inject_keyboard_mem (env : Env) (h vkey : Nat) (e : Effect)
    (he : e ∈ inject_keyboard_to_window env h vkey) :
    ∃ m w l, e = Effect.postMessage h m w l := by
  unfold inject_keyboard_to_window at he
  by_cases hc : env.mapVirtualKeyToChar vkey > 0
  · simp [hc] at he
    rcases he with rfl | rfl | rfl <;> exact ⟨_, _, _, rfl⟩
  · simp [hc] at he
    rcases he with rfl | rfl <;> exact ⟨_, _, _, rfl⟩

lemma dispatch_keyboard (env : Env) (st : RouterState) (ev : EventRec) (uid : String)
    (s : UserSession) (h : Nat) (hk : ev.etype = "keyboard") (hh : s.hwnd = some h) :
    (dispatch env st ev uid s).2.1 = inject_keyboard_to_window env h ev.vkey := by
  simp only [dispatch, if_pos hk, hh, Option.getD_some]

/-! ## Claim theorems -/

lemma lparam_down_eq {k : Nat} (hk : k ≤ 255) : lparamKeyDown k = k * 65536 + 1 := by
  unfold lparamKeyDown
  interval_cases k <;> decide

lemma lparam_up_eq {k : Nat} (hk : k ≤ 255) : lparamKeyUp k = k * 65536 + 3221225473 := by
  unfold lparamKeyUp
  interval_cases k <;> decide

/-- Claim C3: a keyboard injection posts exactly one key-down, then a
character message exactly when the virtual key maps to a character,
then exactly one key-up, in that order; both payloads carry repeat
count 1 in bits 0-15 and the scan code in bits 16-23, with bits 30 and
31 clear on key-down and set on key-up. The hypothesis bounds the scan
code to its 8-bit field, which is what `MapVirtualKeyW(vkey, 0)`
returns. -/
theorem claim3_keyboard_injection_sequence (env : Env) (hwnd vkey : Nat)
    (hscan : env.mapVirtualKeyToScan vkey ≤ 255) :
    ∃ ld lu,
      inject_keyboard_to_window env hwnd vkey =
        [Effect.postMessage hwnd WM_KEYDOWN vkey ld]
          ++ (if env.mapVirtualKeyToChar vkey > 0 then
                [Effect.postMessage hwnd WM_CHAR (env.mapVirtualKeyToChar vkey) ld]
              else [])
          ++ [Effect.postMessage hwnd WM_KEYUP vkey lu] ∧
      ld % 2 ^ 16 = 1 ∧ ld / 2 ^ 16 % 2 ^ 8 = env.mapVirtualKeyToScan vkey ∧
      ld / 2 ^ 30 % 2 = 0 ∧ ld / 2 ^ 31 % 2 = 0 ∧
      lu % 2 ^ 16 = 1 ∧ lu / 2 ^ 16 % 2 ^ 8 = env.mapVirtualKeyToScan vkey ∧
      lu / 2 ^ 30 % 2 = 1 ∧ lu / 2 ^ 31 % 2 = 1 := by
  refine ⟨lparamKeyDown (env.mapVirtualKeyToScan vkey),
    lparamKeyUp (env.mapVirtualKeyToScan vkey), rfl, ?_⟩
  rw [lparam_down_eq hscan, lparam_up_eq hscan]
  refine ⟨?_, ?_, ?_, ?_, ?_, ?_, ?_, ?_⟩ <;> omega

/-- Witness for C3 at the Enter key (virtual key 13, scan code 28,
character code 13) and window 9. -/
theorem claim3_witness :
    ∃ ld lu,
      inject_keyboard_to_window envLive 9 13 =
        [Effect.postMessage 9 WM_KEYDOWN 13 ld]
          ++ (if envLive.mapVirtualKeyToChar 13 > 0 then
                [Effect.postMessage 9 WM_CHAR (envLive.mapVirtualKeyToChar 13) ld]
              else [])
          ++ [Effect.postMessage 9 WM_KEYUP 13 lu] ∧
      ld % 2 ^ 16 = 1 ∧ ld / 2 ^ 16 % 2 ^ 8 = envLive.mapVirtualKeyToScan 13 ∧
      ld / 2 ^ 30 % 2 = 0 ∧ ld / 2 ^ 31 % 2 = 0 ∧
      lu % 2 ^ 16 = 1 ∧ lu / 2 ^ 16 % 2 ^ 8 = envLive.mapVirtualKeyToScan 13 ∧
      lu / 2 ^ 30 % 2 = 1 ∧ lu / 2 ^ 31 % 2 = 1 :=
  claim3_keyboard_injection_sequence envLive 9 13 (by decide)

/-- Claim C1: routing a keyboard event only ever posts window messages
to the handle recorded for the session mapped to the event's device; it
never emits synthetic global input or a foreground change, and the
window holding OS input focus afterwards is the one holding it before. -/
theorem claim1_keyboard_posts_only_to_target (env : Env) (st : RouterState) (ev : EventRec)
    (f : Nat) (hk : ev.etype = "keyboard") :
    focusAfter (route_event env st ev).2.1 f = f ∧
    ∀ e ∈ (route_event env st ev).2.1,
      ∃ uid s h m w l,
        dictGet st.device_mappings ev.device_id = some uid ∧
        dictGet (route_event env st ev).1.user_sessions uid = some s ∧
        s.hwnd = some h ∧ e = Effect.postMessage h m w l := by
  rcases route_event_shape env st ev with hnil | ⟨uid, s₀, s', h, hm, hs, hsh, heq⟩
  · rw [hnil]
    exact ⟨rfl, by simp⟩
  · have heff : (route_event env st ev).2.1 = inject_keyboard_to_window env h ev.vkey := by
      rw [heq]
      exact dispatch_keyboard env st ev uid s' h hk hsh
    constructor
    · rw [heff]
      refine focusAfter_of_posts _ f (fun e he => ?_)
      obtain ⟨m, w, l, rfl⟩ := inject_keyboard_mem env h ev.vkey e he
      exact ⟨h, m, w, l, rfl⟩
    · intro e he
      rw [heff] at he
      obtain ⟨m, w, l, rfl⟩ := inject_keyboard_mem env h ev.vkey e he
      refine ⟨uid, s', h, m, w, l, hm, ?_, hsh, rfl⟩
      rw [heq, dispatch_fst]
      exact dictGet_dictSet st.user_sessions uid s₀ s' hs

/-- Witness for C1 at a concrete delivered keyboard event. -/
theorem claim1_witness :
    focusAfter (route_event envLive stLive evKeyboard).2.1 99 = 99 ∧
    ∀ e ∈ (route_event envLive stLive evKeyboard).2.1,
      ∃ uid s h m w l,
        dictGet stLive.device_mappings evKeyboard.device_id = some uid ∧
        dictGet (route_event envLive stLive evKeyboard).1.user_sessions uid = some s ∧
        s.hwnd = some h ∧ e = Effect.postMessage h m w l :=
  claim1_keyboard_posts_only_to_target envLive stLive evKeyboard 99 rfl

lemma mouseButtonFlags_sum (buttons : Nat) :
    mouseButtonFlags buttons =
      (if buttons &&& RI_MOUSE_LEFT_BUTTON_DOWN ≠ 0 then MOUSEEVENTF_LEFTDOWN else 0) +
      (if buttons &&& RI_MOUSE_LEFT_BUTTON_UP ≠ 0 then MOUSEEVENTF_LEFTUP else 0) +
      (if buttons &&& RI_MOUSE_RIGHT_BUTTON_DOWN ≠ 0 then MOUSEEVENTF_RIGHTDOWN else 0) +
      (if buttons &&& RI_MOUSE_RIGHT_BUTTON_UP ≠ 0 then MOUSEEVENTF_RIGHTUP else 0) +
      (if buttons &&& RI_MOUSE_MIDDLE_BUTTON_DOWN ≠ 0 then MOUSEEVENTF_MIDDLEDOWN else 0) +
      (if buttons &&& RI_MOUSE_MIDDLE_BUTTON_UP ≠ 0 then MOUSEEVENTF_MIDDLEUP else 0) := by
  by_cases h0 : buttons &&& RI_MOUSE_LEFT_BUTTON_DOWN ≠ 0 <;>
  by_cases h1 : buttons &&& RI_MOUSE_LEFT_BUTTON_UP ≠ 0 <;>
  by_cases h2 : buttons &&& RI_MOUSE_RIGHT_BUTTON_DOWN ≠ 0 <;>
  by_cases h3 : buttons &&& RI_MOUSE_RIGHT_BUTTON_UP ≠ 0 <;>
  by_cases h4 : buttons &&& RI_MOUSE_MIDDLE_BUTTON_DOWN ≠ 0 <;>
  by_cases h5 : buttons &&& RI_MOUSE_MIDDLE_BUTTON_UP ≠ 0 <;>
    simp [mouseButtonFlags, h0, h1, h2, h3, h4, h5] <;> decide

lemma dispatch_mouse (env : Env) (st : RouterState) (ev : EventRec) (uid : String)
    (s : UserSession) (hk : ev.etype = "mouse") :
    (dispatch env st ev uid s).2.1 =
      (if ev.dx ≠ 0 ∨ ev.dy ≠ 0 then inject_mouse_move ev.dx ev.dy else [])
        ++ (if ev.buttons ≠ 0 then inject_mouse_button ev.buttons else []) := by
  have hnk : ¬ ev.etype = "keyboard" := by
    rw [hk]
    decide
  simp only [dispatch, if_neg hnk, if_pos hk]

/-- Claim C4: each of the six raw-input button bits maps independently
to its synthetic-input flag and the set flags combine into a single
injected button event; for a mouse event routed to a mapped, resolved
session, a zero-motion zero-button event injects nothing, and a
nonzero-motion zero-button event produces exactly one motion injection
carrying `(dx, dy)` and no button injection. -/
theorem claim4_mouse_translation :
    (∀ buttons : Nat, mouseButtonFlags buttons =
      (if buttons &&& RI_MOUSE_LEFT_BUTTON_DOWN ≠ 0 then MOUSEEVENTF_LEFTDOWN else 0) +
      (if buttons &&& RI_MOUSE_LEFT_BUTTON_UP ≠ 0 then MOUSEEVENTF_LEFTUP else 0) +
      (if buttons &&& RI_MOUSE_RIGHT_BUTTON_DOWN ≠ 0 then MOUSEEVENTF_RIGHTDOWN else 0) +
      (if buttons &&& RI_MOUSE_RIGHT_BUTTON_UP ≠ 0 then MOUSEEVENTF_RIGHTUP else 0) +
      (if buttons &&& RI_MOUSE_MIDDLE_BUTTON_DOWN ≠ 0 then MOUSEEVENTF_MIDDLEDOWN else 0) +
      (if buttons &&& RI_MOUSE_MIDDLE_BUTTON_UP ≠ 0 then MOUSEEVENTF_MIDDLEUP else 0)) ∧
    (∀ buttons : Nat, inject_mouse_button buttons =
      if mouseButtonFlags buttons = 0 then []
      else [Effect.sendInputMouseButton (mouseButtonFlags buttons)]) ∧
    (∀ (env : Env) (st : RouterState) (ev : EventRec) (uid : String) (s : UserSession) (h : Nat),
      ev.etype = "mouse" →
      dictGet st.device_mappings ev.device_id = some uid → ¬ uid = "" →
      dictGet st.user_sessions uid = some s → processDead env s = false →
      s.hwnd = some h → h ≠ 0 → env.isWindow h = true →
      ((ev.dx = 0 ∧ ev.dy = 0 ∧ ev.buttons = 0 → (route_event env st ev).2.1 = []) ∧
       (¬ (ev.dx = 0 ∧ ev.dy = 0) → ev.buttons = 0 →
         (route_event env st ev).2.1 = [Effect.sendInputMouseMove ev.dx ev.dy]))) := by
  refine ⟨mouseButtonFlags_sum, fun buttons => rfl, ?_⟩
  intro env st ev uid s h hk hm hu hs hp hh h0 hw
  have heq := route_event_live_handle env st ev uid s h hm hu hs hp hh h0 hw
  have heff := dispatch_mouse env st ev uid s hk
  rw [heq]
  constructor
  · rintro ⟨hdx, hdy, hb⟩
    rw [heff]
    simp [hdx, hdy, hb]
  · intro hmove hb
    rw [heff, if_pos (not_and_or.mp hmove)]
    simp [hb, inject_mouse_move]

/-- Witness for C4: the specification's scenario event
`dx = 5, dy = -3, buttons = 0` on a mapped, resolved session produces
exactly the one motion injection. -/
theorem claim4_witness :
    (route_event envLive stLive evMouse).2.1 = [Effect.sendInputMouseMove 5 (-3)] := by
  have h := (claim4_mouse_translation.2.2 envLive stLive evMouse "alice" sessionLive 9
    rfl (by decide) (by decide) (by decide) (by decide) rfl (by decide) rfl).2
    (by decide) rfl
  simpa using h

/-- Claim C5: for every event whose device identifier is absent from the
device mapping table, routing yields `droppedUnmappedDevice`, performs
no injection call (empty effect list), and leaves the router state
unchanged. -/
theorem claim5_unmapped_device_drop (env : Env) (st : RouterState) (ev : EventRec)
    (h : dictGet st.device_mappings ev.device_id = none) :
    route_event env st ev = (st, [], RoutingOutcome.droppedUnmappedDevice) := by
  unfold route_event
  rw [h]

/-- Witness for C5 at a concrete unmapped device. -/
theorem claim5_witness :
    route_event envLive stLive evUnmapped = (stLive, [], RoutingOutcome.droppedUnmappedDevice) :=
  claim5_unmapped_device_drop envLive stLive evUnmapped (by decide)

/-- Claim C6: for every routed event whose session has an owned process
that has exited, routing yields `droppedProcessDead`, performs no
injection call, and the session's window handle is absent immediately
afterward. -/
theorem claim6_dead_process_drop (env : Env) (st : RouterState) (ev : EventRec)
    (uid : String) (s : UserSession) (p : Nat)
    (hm : dictGet st.device_mappings ev.device_id = some uid)
    (hu : ¬ uid = "")
    (hs : dictGet st.user_sessions uid = some s)
    (hproc : s.process = some p) (hd : env.exited p = true) :
    (route_event env st ev).2.1 = [] ∧
    (route_event env st ev).2.2 = RoutingOutcome.droppedProcessDead ∧
    ∃ s', dictGet (route_event env st ev).1.user_sessions uid = some s' ∧ s'.hwnd = none := by
  have hpd : processDead env s = true := by simp [processDead, hproc, hd]
  unfold route_event
  rw [hm]
  simp only [if_neg hu]
  rw [hs]
  simp only [hpd, if_true]
  refine ⟨by trivial, by trivial, { s with hwnd := none },
    dictGet_dictSet st.user_sessions uid s _ hs, rfl⟩

/-- Witness for C6 at a concrete session whose process has exited. -/
theorem claim6_witness :
    (route_event envDeadLive stDead evKeyboard3).2.1 = [] ∧
    (route_event envDeadLive stDead evKeyboard3).2.2 = RoutingOutcome.droppedProcessDead ∧
    ∃ s', dictGet (route_event envDeadLive stDead evKeyboard3).1.user_sessions "carol" = some s' ∧
      s'.hwnd = none :=
  claim6_dead_process_drop envDeadLive stDead evKeyboard3 "carol" sessionDead 2
    (by decide) (by decide) (by decide) rfl rfl

/-- Claim C2 (divergence witness): session "alice" has the recorded
handle 42, which is not live (`IsWindow` is false), and re-resolution
fails (empty window enumeration). The claim requires the event to be
dropped as `droppedWindowUnresolvable` with no injection; the code
instead takes the delivered path and posts the keyboard messages into
the stale handle 42, because line 492 of the source ignores the refresh
result and the guard on line 493 can never fire. -/
theorem claim2_stale_handle_injected :
    (route_event envStale stStale evKeyboard).2.2 = RoutingOutcome.delivered ∧
    (route_event envStale stStale evKeyboard).2.1 = inject_keyboard_to_window envStale 42 13 ∧
    inject_keyboard_to_window envStale 42 13 ≠ [] := by decide

/-- Counterexample to C9 as stated: session "carol" holds handle 5 and
`IsWindow 5` is true (the handle is live), yet routing an event to the
session replaces the handle by `none`, because the session's owned
process has exited. -/
theorem claim9_counterexample :
    sessionDead.hwnd = some 5 ∧ envDeadLive.isWindow 5 = true ∧
    dictGet stDead.user_sessions "carol" = some sessionDead ∧
    dictGet (route_event envDeadLive stDead evKeyboard3).1.user_sessions "carol" =
      some { sessionDead with hwnd := none } := by decide

/-- Claim C9 (amended): for every session whose owned process has not
exited and that already has a live window handle, routing an event to
it leaves the handle value unchanged. -/
theorem claim9_live_handle_idempotent (env : Env) (st : RouterState) (ev : EventRec)
    (uid : String) (s : UserSession) (h : Nat)
    (hm : dictGet st.device_mappings ev.device_id = some uid) (hu : ¬ uid = "")
    (hs : dictGet st.user_sessions uid = some s)
    (hp : processDead env s = false)
    (hh : s.hwnd = some h) (h0 : h ≠ 0) (hw : env.isWindow h = true) :
    ∃ s', dictGet (route_event env st ev).1.user_sessions uid = some s' ∧
      s'.hwnd = some h := by
  rw [route_event_live_handle env st ev uid s h hm hu hs hp hh h0 hw, dispatch_fst]
  exact ⟨s, dictGet_dictSet st.user_sessions uid s s hs, hh⟩

/-- Witness for the amended C9 at a live session. -/
theorem claim9_witness :
    ∃ s', dictGet (route_event envLive stLive evKeyboard).1.user_sessions "alice" = some s' ∧
      s'.hwnd = some 9 :=
  claim9_live_handle_idempotent envLive stLive evKeyboard "alice" sessionLive 9
    (by decide) (by decide) (by decide) (by decide) rfl (by decide) rfl

/-- Counterexample to C10 as stated: the attached session "bob" (no
owned process) holds the stale handle 7 (`IsWindow` is false); routing
an event to it is not dropped without injection: it takes the
delivered path and injects into the stale handle. -/
theorem claim10_counterexample :
    sessionAttachedStale.process = none ∧
    envStale.isWindow 7 = false ∧
    (route_event envStale stAttachedStale evKeyboard2).2.1 ≠ [] ∧
    (route_event envStale stAttachedStale evKeyboard2).2.2 = RoutingOutcome.delivered := by
  decide

/-- Claim C10 (amended): for every session with no owned process,
window-handle refresh always fails and leaves the session unchanged;
consequently, once such a session's window handle is absent, every
event routed to it is dropped as window-unresolvable with no injection
call and no state change, and the handle is never re-resolved. -/
theorem claim10_attached_sessions :
    (∀ (env : Env) (s : UserSession), s.process = none →
      refreshWindowHandle env s = (s, false)) ∧
    (∀ (env : Env) (st : RouterState) (ev : EventRec) (uid : String) (s : UserSession),
      dictGet st.device_mappings ev.device_id = some uid → ¬ uid = "" →
      dictGet st.user_sessions uid = some s → s.process = none → s.hwnd = none →
      route_event env st ev = (st, [], RoutingOutcome.droppedWindowUnresolvable)) := by
  have hrefresh : ∀ (env : Env) (s : UserSession), s.process = none →
      refreshWindowHandle env s = (s, false) := by
    intro env s hp
    unfold refreshWindowHandle
    rw [hp]
  refine ⟨hrefresh, ?_⟩
  intro env st ev uid s hm hu hs hp hh
  have hpd : processDead env s = false := by simp [processDead, hp]
  have ht : truthyHwnd s.hwnd = false := by
    rw [hh]
    rfl
  exact route_falsy_refresh_fail env st ev uid s s hm hu hs hpd ht (hrefresh env s hp)

/-- Witness for the amended C10 at a concrete attached session with no
recorded handle. -/
theorem claim10_witness :
    refreshWindowHandle envLive sessionAttachedAbsent = (sessionAttachedAbsent, false) ∧
    route_event envLive stAttachedAbsent evKeyboard2 =
      (stAttachedAbsent, [], RoutingOutcome.droppedWindowUnresolvable) :=
  ⟨claim10_attached_sessions.1 envLive sessionAttachedAbsent rfl,
   claim10_attached_sessions.2 envLive stAttachedAbsent evKeyboard2 "bob"
     sessionAttachedAbsent (by decide) (by decide) (by decide) rfl rfl⟩

/-- Claim C7: a line whose decode fails affects only that line: the
parser emits nothing for it and continues with the following lines, so
a malformed line followed by a decodable line yields exactly the one
event of the valid line, and processing of the remaining lines goes on
unchanged. -/
theorem claim7_decode_error_resync (decode : String → Option EventRec)
    (bad good : String) (rest : List String) (e : EventRec)
    (hb : decode bad = none) (hg : stripTruthy good = true) (he : decode good = some e) :
    processLines decode (bad :: good :: rest) = e :: processLines decode rest := by
  by_cases hbt : stripTruthy bad = true <;> simp [processLines, hb, hbt, hg, he]

/-- Witness for C7: the specification's malformed line followed by a
valid line yields exactly the valid line's event. -/
theorem claim7_witness :
    processLines decodeW ["\x7bnot json", "ok"] = [evParsed] := by
  have h := claim7_decode_error_resync decodeW "\x7bnot json" "ok" [] evParsed
    (by decide) (by decide) (by decide)
  simpa [processLines] using h

/-- Claim C8 (divergence witness): the source does not implement the
claimed discipline that every read of the mapping table or session
registry is mutually exclusive with every mutation under the one shared
lock: `route_event` reads both structures (source lines 466 and 473)
and mutates session state (line 481) without holding `self.lock`, and
`launch_editor`, `attach_to_window` and the HTTP stop handler mutate
the session registry without it. -/
theorem claim8_lock_discipline_violated :
    ¬ lockDiscipline allOperationAccesses ∧
    ∃ a ∈ routeEventAccesses, a.isWrite = false ∧ a.underLock = false := by
  unfold lockDiscipline
  decide

end InputRouter
